import Mathlib

/-!
Verification of the LeadFlowX nightly scoring job (src/job.py).

The development shallowly embeds the `ScoringJob` class: the store of
`scoring_jobs` rows is a `List JobRecord`, timestamps are integers counted
in hours, calendar dates are integers, Python `float` config values are
rationals, and every store access that the code wraps in `try/except` takes
an explicit fault flag so that the exception paths are part of the model.
The result of parsing a config value with Python `float(...)` is embedded
as an `Option ℚ` (`none` for a string that does not parse).
-/

namespace LeadFlowX

/-- A row of `raw_leads` as selected by `update_lead_scores`
(`SELECT id, email, company, website, correlation_id`); the fields that the
scoring function reads.  Optional/NULL-able text fields are embedded as
strings, with the empty string playing the role of a missing value exactly
as Python truthiness does in `calculate_lead_score`. -/
structure Lead where
  id : Nat
  email : String
  company : String
  website : String
deriving DecidableEq

/-- The Python dict `config` of `get_scoring_config`: an association list
from key to numeric value, with insertion-order semantics. -/
abbrev Config := List (String × ℚ)

/-- `default_config` of `get_scoring_config` (src/job.py lines 121-131). -/
def defaultConfig : Config :=
  [("audit_score_weight", 2/5),
   ("audit_score_threshold", 50),
   ("audit_score_points", 10),
   ("employee_count_min", 1),
   ("employee_count_max", 250),
   ("employee_count_points", 5),
   ("email_exists_points", 2),
   ("website_ssl_points", 3),
   ("company_size_bonus", 8)]

/-- `config[k]` as read by `calculate_lead_score`.  Every config produced by
`get_scoring_config` contains all nine default keys, so the `getD 0`
fallback is never exercised by the code paths modelled here (Python would
raise `KeyError`). -/
def cfgGet (cfg : Config) (k : String) : ℚ :=
  (cfg.lookup k).getD 0

/-- Python `dict` assignment `config[k] = v`: replace the value in place if
the key is present, otherwise append the binding. -/
def insertKV (cfg : Config) (k : String) (v : ℚ) : Config :=
  match cfg with
  | [] => [(k, v)]
  | (k0, v0) :: rest =>
      if k0 = k then (k0, v) :: rest else (k0, v0) :: insertKV rest k v

/-- ASCII lowercasing of one character, the effect of Python `str.lower()`
on the ASCII range. -/
def lowerChar (c : Char) : Char :=
  if 'A' ≤ c ∧ c ≤ 'Z' then Char.ofNat (c.toNat + 32) else c

/-- `s.lower()` on the character list of `s`. -/
def lower (s : String) : List Char :=
  s.data.map lowerChar

/-- Python `s.startswith(pre)` (case-sensitive exact prefix match). -/
def startsWith (s pre : String) : Bool :=
  pre.data.isPrefixOf s.data

/-- Python substring containment (`pat in s`) on character lists. -/
def containsChars (pat : List Char) : List Char → Bool
  | [] => pat.isPrefixOf []
  | c :: rest => pat.isPrefixOf (c :: rest) || containsChars pat rest

/-- Python `pat in s` where `s` is given as a character list. -/
def containsSub (pat : String) (s : List Char) : Bool :=
  containsChars pat.data s

/-- `calculate_lead_score` (src/job.py lines 151-179).  `auditScore` is the
value of `lead.get('audit_score', 0)`; `update_lead_scores` always passes 0.
The five additive factors and the final `min(score, 100)` cap are taken
directly from the source. -/
def calculateLeadScore (auditScore : ℚ) (lead : Lead) (cfg : Config) : ℚ :=
  let score0 : ℚ := 0
  let score1 :=
    if cfgGet cfg "audit_score_threshold" ≤ auditScore then
      score0 + cfgGet cfg "audit_score_points" else score0
  let estimatedEmployees : ℚ := max 1 ((lead.company.length : ℚ) * 10)
  let score2 :=
    if cfgGet cfg "employee_count_min" ≤ estimatedEmployees ∧
       estimatedEmployees ≤ cfgGet cfg "employee_count_max" then
      score1 + cfgGet cfg "employee_count_points" else score1
  let score3 :=
    if lead.email ≠ "" then score2 + cfgGet cfg "email_exists_points" else score2
  let score4 :=
    if startsWith lead.website "https://" then
      score3 + cfgGet cfg "website_ssl_points" else score3
  let website := lower lead.website
  let score5 :=
    if containsSub ".com" website || containsSub ".org" website ||
       containsSub ".net" website then
      score4 + cfgGet cfg "company_size_bonus" else score4
  min score5 100

/-- A persisted `config` table row, with its value already sent through
Python `float(...)`: `some q` when the value parses, `none` when parsing
raises `ValueError`/`TypeError`. -/
abbrev ConfigRow := String × Option ℚ

/-- The SQL pattern `key LIKE 'scoring\x7b-\x7d%'` of `get_scoring_config`:
the literal prefix `scoring`, one arbitrary character for the `_` wildcard,
then anything for `%`.  Equivalently: starts with `scoring` and has at
least 8 characters. -/
def matchesScoringPattern (k : String) : Bool :=
  startsWith k "scoring" && decide (8 ≤ k.length)

/-- The overlay loop of `get_scoring_config` (lines 139-143): each row whose
value parsed is written into the dict under the row's own key; a row whose
value failed to parse is skipped. -/
def applyRows (cfg : Config) : List ConfigRow → Config
  | [] => cfg
  | (k, parsed) :: rest =>
      match parsed with
      | some v => applyRows (insertKV cfg k v) rest
      | none => applyRows cfg rest

/-- `get_scoring_config` (src/job.py lines 119-149).  `rows` is the full
`config` table; the SQL query keeps the keys matching the `scoring` LIKE
pattern.  `storeFault` models the outer `except`: on any store error the
hardcoded defaults are returned unconditionally. -/
def getScoringConfig (rows : List ConfigRow) (storeFault : Bool) : Config :=
  if storeFault then defaultConfig
  else applyRows defaultConfig (rows.filter fun row => matchesScoringPattern row.1)

/-- Status column of a `scoring_jobs` row. -/
inductive JobStatus
  | running
  | completed
  | failed
deriving DecidableEq

/-- A `scoring_jobs` row.  Dates are integer day numbers, timestamps are
integer hours (the only duration the code compares against is the 4-hour
staleness window). -/
structure JobRecord where
  id : Nat
  jobDate : Int
  status : JobStatus
  leadsProcessed : Nat
  startTime : Int
  endTime : Option Int
deriving DecidableEq

/-- The `INTERVAL '4 hours'` staleness window of `check_job_lock`. -/
def staleCutoffHours : Int := 4

/-- The 30-day retention window of `cleanup_old_jobs`. -/
def retentionDays : Int := 30

/-- The stale-lock UPDATE of `check_job_lock` (lines 58-64): every row for
this date that is `running` and started strictly more than 4 hours before
`now` becomes `failed`; all other rows are untouched. -/
def reclaimStale (store : List JobRecord) (jobDate now : Int) : List JobRecord :=
  store.map fun r =>
    if r.jobDate = jobDate ∧ r.status = JobStatus.running ∧
       r.startTime < now - staleCutoffHours then
      { r with status := JobStatus.failed }
    else r

/-- The predicate of the running-jobs SELECT of `check_job_lock`
(lines 72-76). -/
def isRunningFor (jobDate : Int) (r : JobRecord) : Bool :=
  decide (r.jobDate = jobDate ∧ r.status = JobStatus.running)

/-- Fault injection points for the three store accesses of
`check_job_lock`: the stale UPDATE (with its commit), the running-jobs
SELECT, and the completed-jobs SELECT.  A raised fault lands in the
function's `except` clause, which returns `False`. -/
structure LockFaults where
  updateFault : Bool
  selectRunningFault : Bool
  selectCompletedFault : Bool
deriving DecidableEq

/-- No store fault during the lock check. -/
def noLockFaults : LockFaults := ⟨false, false, false⟩

/-- `check_job_lock` (src/job.py lines 53-99).  Returns the grant decision
together with the store as left behind (the stale UPDATE is committed
before the SELECTs run).  Any fault makes the whole function return
`false`, i.e. denial. -/
def checkJobLock (store : List JobRecord) (jobDate now : Int) (f : LockFaults) :
    Bool × List JobRecord :=
  if f.updateFault then (false, store)
  else
    let store1 := reclaimStale store jobDate now
    if f.selectRunningFault then (false, store1)
    else if store1.any (isRunningFor jobDate) then (false, store1)
    else if f.selectCompletedFault then (false, store1)
    else (true, store1)

/-- `create_job_record` (src/job.py lines 101-117): INSERT a `running` row
with `leads_processed = 0` and `start_time = now`, returning the assigned
id; on a fault, roll back (store unchanged) and report failure (`none`). -/
def createJobRecord (store : List JobRecord) (jobDate now : Int) (newId : Nat)
    (fault : Bool) : Option Nat × List JobRecord :=
  if fault then (none, store)
  else (some newId, store ++ [⟨newId, jobDate, JobStatus.running, 0, now, none⟩])

/-- The per-lead loop of `update_lead_scores` (lines 198-216).  `leadFault`
says whether processing of the lead at a given 0-based position raises; a
faulted lead is logged and skipped (`continue`), a non-faulted lead has its
score computed (the score is only logged, never stored) and the running
`leads_processed` counter incremented. -/
def scoringLoop (cfg : Config) (leadFault : Nat → Bool) :
    List Lead → Nat → Nat → Nat
  | [], _, leadsProcessed => leadsProcessed
  | lead :: rest, idx, leadsProcessed =>
    if leadFault idx then scoringLoop cfg leadFault rest (idx + 1) leadsProcessed
    else
      let _newScore := calculateLeadScore 0 lead cfg
      scoringLoop cfg leadFault rest (idx + 1) (leadsProcessed + 1)

/-- `update_lead_scores` (src/job.py lines 181-225).  `leads` is the result
of the `raw_leads` SELECT in its `ORDER BY created_at DESC` order.
`Except.error k` models an exception escaping the function (after the
rollback of the outer `except`), where `k` is the value of the local
`leads_processed` at the moment the exception propagates.  The only store
access outside the per-lead `try` is the initial SELECT, which runs before
any lead is processed, so an escaping exception always carries
`leads_processed = 0`; every fault inside the loop body is swallowed by the
per-lead `except ... continue`. -/
def updateLeadScores (leads : List Lead) (rows : List ConfigRow)
    (cfgFault : Bool) (leadFault : Nat → Bool) (fetchFault : Bool) :
    Except Nat Nat :=
  let cfg := getScoringConfig rows cfgFault
  if fetchFault then Except.error 0
  else Except.ok (scoringLoop cfg leadFault leads 0 0)

/-- `cleanup_old_jobs` (src/job.py lines 227-239): DELETE the rows whose
`job_date` is strictly older than 30 days before the current date; a fault
is caught and logged, leaving the store unchanged. -/
def cleanupOldJobs (store : List JobRecord) (currentDate : Int) (fault : Bool) :
    List JobRecord :=
  if fault then store
  else store.filter fun r => !decide (r.jobDate < currentDate - retentionDays)

/-- `complete_job` (src/job.py lines 241-259).  `jobId` is `self.job_id`;
Python's `if not self.job_id: return` skips the write both for `None` and
for the (store-assigned) id 0.  On a fault the UPDATE is not committed and
the error is only logged.  Otherwise every row with the job's id gets
`status` (`failed` when an error message was passed, else `completed`),
`leads_processed` and `end_time`. -/
def completeJob (store : List JobRecord) (jobId : Option Nat)
    (leadsProcessed : Nat) (isError : Bool) (endTime : Int) (fault : Bool) :
    List JobRecord :=
  match jobId with
  | none => store
  | some jid =>
    if jid = 0 then store
    else if fault then store
    else
      store.map fun r =>
        if r.id = jid then
          { r with
              status := if isError then JobStatus.failed else JobStatus.completed,
              leadsProcessed := leadsProcessed,
              endTime := some endTime }
        else r

/-- Fault injection for one whole run: connection retries exhausted, the
three lock-check faults, the INSERT of the job record, the config SELECT,
per-lead faults, the lead SELECT, the retention DELETE, and the final
UPDATE of `complete_job`. -/
structure Faults where
  connectFault : Bool
  lock : LockFaults
  createFault : Bool
  cfgFault : Bool
  leadFault : Nat → Bool
  fetchFault : Bool
  cleanupFault : Bool
  finalizeFault : Bool

/-- A run with no fault anywhere. -/
def runNoFaults : Faults :=
  ⟨false, noLockFaults, false, false, fun _ => false, false, false, false⟩

/-- Outcome of `ScoringJob.run`: the returned boolean, the final
`self.job_id`, the final store, and the successive store states the run
went through (`trace.head = initial store`, one entry per store-mutating
step that was reached). -/
structure RunResult where
  success : Bool
  jobId : Option Nat
  store : List JobRecord
  trace : List (List JobRecord)

/-- `ScoringJob.run` (src/job.py lines 261-305) followed by `main`'s use of
its boolean result.  `store0` is the store at startup, `jobDate` is
`date.today()` (also the SQL `CURRENT_DATE` used by the retention DELETE),
`now` the start/end timestamp, `newId` the id the store assigns to the
inserted job row.  On the exception path (an exception escaping
`update_lead_scores`) the code calls `complete_job` with `run`'s own local
`leads_processed`, which is still 0 because the assignment
`leads_processed = self.update_lead_scores()` never executed. -/
def run (store0 : List JobRecord) (leads : List Lead) (rows : List ConfigRow)
    (jobDate now : Int) (newId : Nat) (f : Faults) : RunResult :=
  if f.connectFault then ⟨false, none, store0, [store0]⟩
  else
    let lockResult := checkJobLock store0 jobDate now f.lock
    let store1 := lockResult.2
    if lockResult.1 then
      let createResult := createJobRecord store1 jobDate now newId f.createFault
      let store2 := createResult.2
      match createResult.1 with
      | none => ⟨false, none, store2, [store0, store1, store2]⟩
      | some jid =>
        match updateLeadScores leads rows f.cfgFault f.leadFault f.fetchFault with
        | Except.error _ =>
          let store3 := completeJob store2 (some jid) 0 true now f.finalizeFault
          ⟨false, some jid, store3, [store0, store1, store2, store3]⟩
        | Except.ok n =>
          let store3 := cleanupOldJobs store2 jobDate f.cleanupFault
          let store4 := completeJob store3 (some jid) n false now f.finalizeFault
          ⟨true, some jid, store4, [store0, store1, store2, store3, store4]⟩
    else ⟨false, none, store1, [store0, store1]⟩

/-- `main` (src/job.py lines 307-316): exit code 0 on success, 1 on any
failure. -/
def mainExitCode (store0 : List JobRecord) (leads : List Lead)
    (rows : List ConfigRow) (jobDate now : Int) (newId : Nat) (f : Faults) :
    Nat :=
  if (run store0 leads rows jobDate now newId f).success then 0 else 1

/-- Number of `running` rows for a given date (the quantity the
at-most-one-running invariant bounds). -/
def runningCount (store : List JobRecord) (d : Int) : Nat :=
  store.countP (isRunningFor d)

/-- The §3 invariant: at most one `running` job record per `jobDate`. -/
def AtMostOneRunning (store : List JobRecord) : Prop :=
  ∀ d, runningCount store d ≤ 1

/-- The lead of the spec's C1 scenario: website `https://example.com`,
every other field empty. -/
def c1Lead : Lead := ⟨1, "", "", "https://example.com"⟩

/-- A lead with every field empty. -/
def emptyLead : Lead := ⟨1, "", "", ""⟩

/-- A configuration that is the default except for a negative
`employee_count_points`: a permitted "assignment of numeric values to the
scoring parameters" under claim C4's quantifier. -/
def c4NegConfig : Config :=
  [("audit_score_weight", 2/5),
   ("audit_score_threshold", 50),
   ("audit_score_points", 10),
   ("employee_count_min", 1),
   ("employee_count_max", 250),
   ("employee_count_points", -50),
   ("email_exists_points", 2),
   ("website_ssl_points", 3),
   ("company_size_bonus", 8)]

/-- A persisted override row for `audit_score_points` whose value parses
(`float("25") = 25.0`). -/
def c3Rows : List ConfigRow := [("scoring_audit_score_points", some 25)]

/-- A `running` job record for date 0 started 5 hours before `now = 0`. -/
def staleRecord : JobRecord := ⟨7, 0, JobStatus.running, 0, -5, none⟩

/-- A `running` job record for date 0 started 1 hour before `now = 0`. -/
def freshRecord : JobRecord := ⟨7, 0, JobStatus.running, 0, -1, none⟩

/-- Five concrete leads for the spec's per-lead fault scenario. -/
def c8Leads : List Lead :=
  [⟨1, "a@x.com", "Acme", "https://a.com"⟩,
   ⟨2, "b@x.com", "Bray", "http://b.org"⟩,
   ⟨3, "c@x.com", "Cole", "https://c.net"⟩,
   ⟨4, "d@x.com", "Dunn", "https://d.com"⟩,
   ⟨5, "e@x.com", "Eden", "https://e.com"⟩]

/-- Faults for the C8 scenario: lead #3 (index 2) raises during scoring; no
store-level fault anywhere. -/
def c8Faults : Faults :=
  ⟨false, noLockFaults, false, false, fun i => decide (i = 2), false, false, false⟩

/-- Faults for the C2 witness scenario: the lead SELECT inside
`update_lead_scores` raises; everything else is healthy. -/
def c2Faults : Faults :=
  ⟨false, noLockFaults, false, false, fun _ => false, true, false, false⟩

/-- The number of positions in `0, ..., n-1` where `leadFault` does not
fire: the count of leads a batch of `n` leads yields when exactly the
faulted ones are skipped. -/
def countNonFaulted (n : Nat) (leadFault : Nat → Bool) : Nat :=
  ((List.range n).filter fun i => !leadFault i).length

/-- Processing a list of config rows factors through list append. -/
theorem applyRows_append (cfg : Config) (a b : List ConfigRow) :
    applyRows cfg (a ++ b) = applyRows (applyRows cfg a) b := by
  induction a generalizing cfg with
  | nil => rfl
  | cons row rest ih =>
    obtain ⟨k, parsed⟩ := row
    cases parsed <;> simp [applyRows, ih]

/-- The default-config score of the C1 lead evaluates to 16. -/
theorem c1Lead_score_eval : calculateLeadScore 0 c1Lead defaultConfig = 16 := by
  have h1 : cfgGet defaultConfig "audit_score_threshold" = 50 := rfl
  have h2 : cfgGet defaultConfig "audit_score_points" = 10 := rfl
  have h3 : cfgGet defaultConfig "employee_count_min" = 1 := rfl
  have h4 : cfgGet defaultConfig "employee_count_max" = 250 := rfl
  have h5 : cfgGet defaultConfig "employee_count_points" = 5 := rfl
  have h6 : cfgGet defaultConfig "email_exists_points" = 2 := rfl
  have h7 : cfgGet defaultConfig "website_ssl_points" = 3 := rfl
  have h8 : cfgGet defaultConfig "company_size_bonus" = 8 := rfl
  have hsw : startsWith "https://example.com" "https://" = true := by decide
  have hcom : containsSub ".com" (lower "https://example.com") = true := by decide
  have hlen : ("" : String).length = 0 := rfl
  simp only [calculateLeadScore, c1Lead, h1, h2, h3, h4, h5, h6, h7, h8, hsw,
    hcom, hlen, Bool.true_or, Bool.or_true, if_true, ne_eq, not_true_eq_false,
    if_false]
  norm_num [min_def]

/-- C1: the claim asserts a score of exactly 11 for the
`https://example.com` lead under the default configuration; the code
returns 16, because the empty company name gives an estimated employee
count of `max(1, 0) = 1`, which lies inside the default `[1, 250]` range
and earns the 5 `employee_count_points` on top of 3 + 8. -/
theorem c1_counterexample : calculateLeadScore 0 c1Lead defaultConfig ≠ 11 := by
  rw [c1Lead_score_eval]; norm_num

/-- C1 (amended): for a lead whose website is `https://example.com` and
whose every other field is empty/zero, scoring under the default
configuration returns exactly 16: `website_ssl_points` (3) plus
`company_size_bonus` (8) plus `employee_count_points` (5), the last because
the empty company string estimates `max(1, 10*0) = 1` employees, inside the
default `[1, 250]` range. -/
theorem c1_amended_score : calculateLeadScore 0 c1Lead defaultConfig = 16 :=
  c1Lead_score_eval

/-- The score of an all-empty lead under the configuration whose
`employee_count_points` is -50 evaluates to -50. -/
theorem c4NegConfig_score_eval :
    calculateLeadScore 0 emptyLead c4NegConfig = -50 := by
  have h1 : cfgGet c4NegConfig "audit_score_threshold" = 50 := rfl
  have h2 : cfgGet c4NegConfig "employee_count_min" = 1 := rfl
  have h3 : cfgGet c4NegConfig "employee_count_max" = 250 := rfl
  have h4 : cfgGet c4NegConfig "employee_count_points" = -50 := rfl
  have hsw : startsWith "" "https://" = false := by decide
  have hcom : containsSub ".com" (lower "") = false := by decide
  have horg : containsSub ".org" (lower "") = false := by decide
  have hnet : containsSub ".net" (lower "") = false := by decide
  have hlen : ("" : String).length = 0 := rfl
  simp only [calculateLeadScore, emptyLead, h1, h2, h3, h4, hsw, hcom, horg,
    hnet, hlen, Bool.or_self, Bool.or_false, if_false, ne_eq,
    not_true_eq_false]
  norm_num [min_def]

/-- C4 counterexample: under a configuration assigning the numeric value
-50 to `employee_count_points` (all other parameters at their defaults),
the all-empty lead scores -50 < 0 — the code caps only at 100 and never
clamps at 0, so the claimed bound `0 <= score` fails for arbitrary numeric
configurations. -/
theorem c4_counterexample : calculateLeadScore 0 emptyLead c4NegConfig < 0 := by
  rw [c4NegConfig_score_eval]; norm_num

/-- C4 (amended): the score never exceeds 100 for any lead and any
configuration, and it is non-negative whenever every configuration
parameter value is non-negative (which holds for the defaults and for any
override the spec contemplates). -/
theorem c4_amended_score_bounds (auditScore : ℚ) (lead : Lead) (cfg : Config) :
    calculateLeadScore auditScore lead cfg ≤ 100 ∧
    ((∀ k, 0 ≤ cfgGet cfg k) → 0 ≤ calculateLeadScore auditScore lead cfg) := by
  constructor
  · simp only [calculateLeadScore]
    exact min_le_right _ _
  · intro h
    simp only [calculateLeadScore]
    refine le_min ?_ (by norm_num)
    split_ifs <;>
      linarith [h "audit_score_points", h "employee_count_points",
        h "email_exists_points", h "website_ssl_points",
        h "company_size_bonus"]

/-- Witness for C4 (amended) at the all-empty lead and the empty
configuration, whose every lookup is 0. -/
theorem c4_amended_score_bounds_witness :
    0 ≤ calculateLeadScore 0 emptyLead [] ∧
    calculateLeadScore 0 emptyLead [] ≤ 100 :=
  ⟨(c4_amended_score_bounds 0 emptyLead []).2 (fun _ => le_of_eq rfl),
   (c4_amended_score_bounds 0 emptyLead []).1⟩

/-- C3 (documents the code bug): the parsed override row
`scoring_audit_score_points = 25` is stored in the loaded dict under its
full prefixed key, while `calculate_lead_score` consults the unprefixed key
`audit_score_points`, which keeps its hardcoded default 10.  A lead whose
audit score meets the threshold is therefore scored with the default 10
(total 15 with the 5 employee points), not with the override 25 (which
would give 30) — the override never reaches the scoring function. -/
theorem c3_parsed_override_not_consulted :
    cfgGet (getScoringConfig c3Rows false) "audit_score_points" = 10 ∧
    (getScoringConfig c3Rows false).lookup "scoring_audit_score_points" =
      some 25 ∧
    calculateLeadScore 50 emptyLead (getScoringConfig c3Rows false) = 15 := by
  refine ⟨rfl, rfl, ?_⟩
  have h1 : cfgGet (getScoringConfig c3Rows false) "audit_score_threshold" = 50 := rfl
  have h2 : cfgGet (getScoringConfig c3Rows false) "audit_score_points" = 10 := rfl
  have h3 : cfgGet (getScoringConfig c3Rows false) "employee_count_min" = 1 := rfl
  have h4 : cfgGet (getScoringConfig c3Rows false) "employee_count_max" = 250 := rfl
  have h5 : cfgGet (getScoringConfig c3Rows false) "employee_count_points" = 5 := rfl
  have hsw : startsWith "" "https://" = false := by decide
  have hcom : containsSub ".com" (lower "") = false := by decide
  have horg : containsSub ".org" (lower "") = false := by decide
  have hnet : containsSub ".net" (lower "") = false := by decide
  have hlen : ("" : String).length = 0 := rfl
  simp only [calculateLeadScore, emptyLead, h1, h2, h3, h4, h5, hsw, hcom,
    horg, hnet, hlen, Bool.or_self, Bool.or_false, if_false, ne_eq,
    not_true_eq_false]
  norm_num [min_def]

/-- C9: one row whose value fails to parse as a float is skipped: deleting
it from the row list does not change the loaded configuration at all (the
other rows are still applied), and a load consisting only of the malformed
row returns exactly the hardcoded defaults. -/
theorem c9_unparseable_row_skipped (rows1 rows2 : List ConfigRow) (k : String) :
    getScoringConfig (rows1 ++ (k, none) :: rows2) false =
      getScoringConfig (rows1 ++ rows2) false ∧
    getScoringConfig [(k, none)] false = defaultConfig := by
  constructor
  · simp only [getScoringConfig, Bool.false_eq_true, if_false,
      List.filter_append, List.filter_cons]
    by_cases h : matchesScoringPattern k = true <;>
      simp [h, applyRows_append, applyRows]
  · simp only [getScoringConfig, Bool.false_eq_true, if_false,
      List.filter_cons, List.filter_nil]
    by_cases h : matchesScoringPattern k = true <;>
      simp [h, applyRows]

/-- C10: when no job record was created in this run (`self.job_id` is still
`None`), `complete_job` returns before touching the store: every job record
and all other store state is unchanged. -/
theorem c10_no_job_id_no_write (store : List JobRecord) (leadsProcessed : Nat)
    (isError : Bool) (endTime : Int) (fault : Bool) :
    completeJob store none leadsProcessed isError endTime fault = store := rfl

/-- C7: a store-access fault at any of the three access points of
`check_job_lock` (the stale UPDATE, the running-jobs SELECT, or the
completed-jobs SELECT) makes the check return denial; the lock is never
granted when the check itself fails. -/
theorem c7_store_fault_denies (store : List JobRecord) (jobDate now : Int)
    (f : LockFaults)
    (h : f.updateFault = true ∨ f.selectRunningFault = true ∨
      f.selectCompletedFault = true) :
    (checkJobLock store jobDate now f).1 = false := by
  obtain ⟨u, sr, sc⟩ := f
  simp only at h
  cases u <;> cases sr <;> cases sc <;> simp_all [checkJobLock]

/-- Witness for C7: a fault on the stale UPDATE denies the lock. -/
theorem c7_store_fault_denies_witness :
    (checkJobLock [] 0 0 ⟨true, false, false⟩).1 = false :=
  c7_store_fault_denies [] 0 0 ⟨true, false, false⟩ (Or.inl rfl)

/-- With no fault injected, the lock check leaves exactly the reclaimed
store behind. -/
theorem checkJobLock_noFaults_snd (store : List JobRecord) (jobDate now : Int) :
    (checkJobLock store jobDate now noLockFaults).2 =
      reclaimStale store jobDate now := by
  simp only [checkJobLock, noLockFaults, Bool.false_eq_true, if_false]
  split_ifs <;> rfl

/-- With no fault injected, the lock check grants exactly when no running
record for the date survives the reclamation pass. -/
theorem checkJobLock_noFaults_fst (store : List JobRecord) (jobDate now : Int) :
    (checkJobLock store jobDate now noLockFaults).1 =
      !(reclaimStale store jobDate now).any (isRunningFor jobDate) := by
  simp only [checkJobLock, noLockFaults, Bool.false_eq_true, if_false]
  split_ifs with h <;> simp [h]

/-- C5: a fault-free lock acquisition first marks every running record for
the date whose start time is more than 4 hours old as failed (leaving all
other records unchanged), and then grants exactly when no running record
for the date remains; concretely, a single running record started 5 hours
ago is failed and acquisition succeeds, while one started 1 hour ago
survives and causes denial. -/
theorem c5_reclaim_then_grant :
    (∀ (store : List JobRecord) (jobDate now : Int),
      (∀ r ∈ store, r.jobDate = jobDate → r.status = JobStatus.running →
        r.startTime < now - staleCutoffHours →
        { r with status := JobStatus.failed } ∈
          (checkJobLock store jobDate now noLockFaults).2) ∧
      (∀ r ∈ store,
        ¬(r.jobDate = jobDate ∧ r.status = JobStatus.running ∧
          r.startTime < now - staleCutoffHours) →
        r ∈ (checkJobLock store jobDate now noLockFaults).2) ∧
      ((checkJobLock store jobDate now noLockFaults).1 = true ↔
        ∀ r ∈ (checkJobLock store jobDate now noLockFaults).2,
          ¬(r.jobDate = jobDate ∧ r.status = JobStatus.running))) ∧
    checkJobLock [staleRecord] 0 0 noLockFaults =
      (true, [{ staleRecord with status := JobStatus.failed }]) ∧
    checkJobLock [freshRecord] 0 0 noLockFaults = (false, [freshRecord]) := by
  refine ⟨?_, by decide, by decide⟩
  intro store jobDate now
  rw [checkJobLock_noFaults_snd, checkJobLock_noFaults_fst]
  refine ⟨?_, ?_, ?_⟩
  · intro r hr h1 h2 h3
    exact List.mem_map.2 ⟨r, hr, by rw [if_pos ⟨h1, h2, h3⟩]⟩
  · intro r hr hnot
    exact List.mem_map.2 ⟨r, hr, by rw [if_neg hnot]⟩
  · rw [Bool.not_eq_eq_eq_not, Bool.not_true, List.any_eq_false]
    constructor
    · intro hall r hrmem
      have := hall r hrmem
      simpa [isRunningFor] using this
    · intro hall r hrmem
      simpa [isRunningFor] using hall r hrmem

/-- Witness for C5: the stale record of the concrete scenario is indeed
transitioned to failed in the store the check leaves behind. -/
theorem c5_reclaim_then_grant_witness :
    { staleRecord with status := JobStatus.failed } ∈
      (checkJobLock [staleRecord] 0 0 noLockFaults).2 :=
  (c5_reclaim_then_grant.1 [staleRecord] 0 0).1 staleRecord
    (List.mem_singleton_self _) rfl rfl (by decide)

/-- The per-lead loop returns its accumulator plus the number of positions
in the processed index range where no fault fires. -/
theorem scoringLoop_count (cfg : Config) (lf : Nat → Bool) (leads : List Lead)
    (i acc : Nat) :
    scoringLoop cfg lf leads i acc =
      acc + ((List.range' i leads.length).filter fun j => !lf j).length := by
  induction leads generalizing i acc with
  | nil => simp [scoringLoop]
  | cons lead rest ih =>
    by_cases h : lf i = true <;>
      simp [scoringLoop, h, ih, List.range'_succ, List.filter_cons] <;> omega

/-- C8: a fault while scoring one lead never aborts the batch: with no
store-level fault, `update_lead_scores` returns normally and counts exactly
the leads whose processing did not fault, for every batch and every fault
pattern; concretely, a run over 5 leads where lead #3 faults completes
with status `completed` and `leadsProcessed = 4`. -/
theorem c8_per_lead_fault_isolated :
    (∀ (leads : List Lead) (rows : List ConfigRow) (cfgFault : Bool)
        (lf : Nat → Bool),
      updateLeadScores leads rows cfgFault lf false =
        Except.ok (countNonFaulted leads.length lf)) ∧
    (run [] c8Leads [] 0 0 1 c8Faults).success = true ∧
    (⟨1, 0, JobStatus.completed, 4, 0, some 0⟩ : JobRecord) ∈
      (run [] c8Leads [] 0 0 1 c8Faults).store := by
  refine ⟨?_, by decide, by decide⟩
  intro leads rows cfgFault lf
  simp only [updateLeadScores, Bool.false_eq_true, if_false,
    scoringLoop_count, countNonFaulted, List.range_eq_range']
  simp

/-- C2: whenever an exception escapes `update_lead_scores` (necessarily
carrying the partial count `k` of leads processed before it propagated) in
a run that had acquired the lock and created its job record, the top-level
handler finalizes the record as `failed` with `leadsProcessed = k` and the
process reports failure with exit code 1.  (In the code the only store
access outside the per-lead handler is the initial SELECT, so `k` is
always 0; `run` passes its own local `leads_processed`, still 0, which
coincides with `k`.) -/
theorem c2_scoring_fault_finalizes_failed (store0 : List JobRecord)
    (leads : List Lead) (rows : List ConfigRow) (jobDate now : Int)
    (newId : Nat) (f : Faults) (k : Nat)
    (hconn : f.connectFault = false)
    (hgrant : (checkJobLock store0 jobDate now f.lock).1 = true)
    (hcreate : f.createFault = false)
    (hfin : f.finalizeFault = false)
    (hid : newId ≠ 0)
    (herr : updateLeadScores leads rows f.cfgFault f.leadFault f.fetchFault =
      Except.error k) :
    (run store0 leads rows jobDate now newId f).success = false ∧
    mainExitCode store0 leads rows jobDate now newId f = 1 ∧
    (⟨newId, jobDate, JobStatus.failed, k, now, some now⟩ : JobRecord) ∈
      (run store0 leads rows jobDate now newId f).store := by
  have hk : k = 0 := by
    simp only [updateLeadScores] at herr
    split at herr
    · exact (Except.error.inj herr).symm
    · cases herr
  subst hk
  have hrun : run store0 leads rows jobDate now newId f =
      ⟨false, some newId,
        completeJob ((checkJobLock store0 jobDate now f.lock).2 ++
          [⟨newId, jobDate, JobStatus.running, 0, now, none⟩])
          (some newId) 0 true now f.finalizeFault,
        [store0, (checkJobLock store0 jobDate now f.lock).2,
          (checkJobLock store0 jobDate now f.lock).2 ++
            [⟨newId, jobDate, JobStatus.running, 0, now, none⟩],
          completeJob ((checkJobLock store0 jobDate now f.lock).2 ++
            [⟨newId, jobDate, JobStatus.running, 0, now, none⟩])
            (some newId) 0 true now f.finalizeFault]⟩ := by
    simp only [run, hconn, Bool.false_eq_true, if_false, hgrant, if_true,
      createJobRecord, hcreate, herr]
  refine ⟨by rw [hrun], by rw [mainExitCode, hrun]; rfl, ?_⟩
  rw [hrun]
  simp only [completeJob, hfin, Bool.false_eq_true, if_neg hid, if_false]
  refine List.mem_map.2 ⟨⟨newId, jobDate, JobStatus.running, 0, now, none⟩,
    List.mem_append_right _ (List.mem_singleton_self _), ?_⟩
  simp

/-- Witness for C2: an empty store, a faulting lead SELECT, and a healthy
rest of the run yield a failed finalization with count 0 and exit code 1. -/
theorem c2_scoring_fault_finalizes_failed_witness :
    (run [] [] [] 0 0 1 c2Faults).success = false ∧
    mainExitCode [] [] [] 0 0 1 c2Faults = 1 ∧
    (⟨1, 0, JobStatus.failed, 0, 0, some 0⟩ : JobRecord) ∈
      (run [] [] [] 0 0 1 c2Faults).store :=
  c2_scoring_fault_finalizes_failed [] [] [] 0 0 1 c2Faults 0 rfl (by decide)
    rfl rfl (by decide) rfl

/-- Mapping a status-preserving-or-demoting function over the store cannot
increase a `countP`. -/
theorem countP_le_of_map (g : JobRecord → JobRecord) (p : JobRecord → Bool)
    (store : List JobRecord) (h : ∀ r, p (g r) = true → p r = true) :
    (store.map g).countP p ≤ store.countP p := by
  induction store with
  | nil => simp
  | cons r rest ih =>
    simp only [List.map_cons, List.countP_cons]
    split_ifs with h1 h2 h2
    · omega
    · exact absurd (h r h1) h2
    · omega
    · omega

/-- Filtering a list cannot increase a `countP`. -/
theorem countP_filter_le (p q : JobRecord → Bool) (l : List JobRecord) :
    (l.filter q).countP p ≤ l.countP p := by
  induction l with
  | nil => simp
  | cons r rest ih =>
    simp only [List.filter_cons]
    split_ifs with hq
    · simp only [List.countP_cons]
      split_ifs <;> omega
    · simp only [List.countP_cons]
      split_ifs <;> omega

/-- Stale-lock reclamation only demotes records away from `running`, so it
cannot increase the number of running records for any date. -/
theorem runningCount_reclaimStale_le (store : List JobRecord)
    (jobDate now d : Int) :
    runningCount (reclaimStale store jobDate now) d ≤ runningCount store d := by
  refine countP_le_of_map _ _ _ ?_
  intro r h
  by_cases hc : r.jobDate = jobDate ∧ r.status = JobStatus.running ∧
      r.startTime < now - staleCutoffHours
  · rw [if_pos hc] at h
    simp [isRunningFor] at h
  · rwa [if_neg hc] at h

/-- The lock check leaves the store either untouched or reclaimed. -/
theorem checkJobLock_snd_cases (store : List JobRecord) (jobDate now : Int)
    (f : LockFaults) :
    (checkJobLock store jobDate now f).2 = store ∨
    (checkJobLock store jobDate now f).2 = reclaimStale store jobDate now := by
  obtain ⟨u, sr, sc⟩ := f
  cases u <;> cases sr <;> cases sc <;>
    simp [checkJobLock] <;> split_ifs <;> simp

/-- A granted lock check has committed the reclamation and guarantees that
no running record for the date remains. -/
theorem checkJobLock_grant (store : List JobRecord) (jobDate now : Int)
    (f : LockFaults) (h : (checkJobLock store jobDate now f).1 = true) :
    (checkJobLock store jobDate now f).2 = reclaimStale store jobDate now ∧
    runningCount (reclaimStale store jobDate now) jobDate = 0 := by
  obtain ⟨u, sr, sc⟩ := f
  cases u
  · cases sr
    · by_cases hany :
          (reclaimStale store jobDate now).any (isRunningFor jobDate) = true
      · simp [checkJobLock, hany] at h
      · rw [Bool.not_eq_true] at hany
        have hall : ∀ r ∈ reclaimStale store jobDate now,
            ¬ isRunningFor jobDate r = true := by
          intro r hrmem hp
          have : (reclaimStale store jobDate now).any (isRunningFor jobDate)
              = true := List.any_eq_true.2 ⟨r, hrmem, hp⟩
          rw [hany] at this
          cases this
        cases sc
        · exact ⟨by simp [checkJobLock, hany], List.countP_eq_zero.2 hall⟩
        · simp [checkJobLock, hany] at h
    · simp [checkJobLock] at h
  · simp [checkJobLock] at h

/-- Finalization only moves records from `running` to `completed` or
`failed`, so it cannot increase the number of running records. -/
theorem runningCount_completeJob_le (store : List JobRecord)
    (jobId : Option Nat) (lp : Nat) (isErr : Bool) (t : Int) (fault : Bool)
    (d : Int) :
    runningCount (completeJob store jobId lp isErr t fault) d ≤
      runningCount store d := by
  match jobId with
  | none => exact le_refl _
  | some jid =>
    simp only [completeJob]
    split_ifs
    · exact le_refl _
    · exact le_refl _
    all_goals
      refine countP_le_of_map _ _ _ ?_
    all_goals
      intro r h
      by_cases hr : r.id = jid
      · rw [if_pos hr] at h
        simp only [isRunningFor, decide_eq_true_eq] at h
        exact absurd h.2 (by decide)
      · rwa [if_neg hr] at h

/-- Retention cleanup only deletes records, so it cannot increase the
number of running records. -/
theorem runningCount_cleanup_le (store : List JobRecord) (cd : Int)
    (fault : Bool) (d : Int) :
    runningCount (cleanupOldJobs store cd fault) d ≤ runningCount store d := by
  simp only [cleanupOldJobs]
  split_ifs
  · exact le_refl _
  · exact countP_filter_le _ _ _

/-- Appending one new running record preserves the at-most-one invariant
when its date currently has no running record. -/
theorem atMostOne_append_new (store : List JobRecord) (rec : JobRecord)
    (hstore : AtMostOneRunning store)
    (hz : runningCount store rec.jobDate = 0) :
    AtMostOneRunning (store ++ [rec]) := by
  intro d
  simp only [runningCount, List.countP_append, List.countP_cons,
    List.countP_nil]
  by_cases hd : rec.jobDate = d
  · subst hd
    simp only [runningCount] at hz
    rw [hz]
    split_ifs <;> omega
  · have hfalse : isRunningFor d rec = false := by
      simp only [isRunningFor, decide_eq_false_iff_not]
      rintro ⟨h1, _⟩
      exact hd h1
    have := hstore d
    simp only [runningCount] at this
    simp only [hfalse, Bool.false_eq_true, if_false]
    omega

/-- C6: every store state a run passes through — after the lock check,
after record creation, after scoring, after cleanup, after finalization —
satisfies the at-most-one-running-record-per-date invariant, provided the
initial store does; each step of the lifecycle preserves the predicate. -/
theorem c6_at_most_one_running (store0 : List JobRecord) (leads : List Lead)
    (rows : List ConfigRow) (jobDate now : Int) (newId : Nat) (f : Faults)
    (h0 : AtMostOneRunning store0) :
    ∀ s ∈ (run store0 leads rows jobDate now newId f).trace,
      AtMostOneRunning s := by
  have hlock : AtMostOneRunning (checkJobLock store0 jobDate now f.lock).2 := by
    intro d
    rcases checkJobLock_snd_cases store0 jobDate now f.lock with h | h <;>
      rw [h]
    · exact h0 d
    · exact le_trans (runningCount_reclaimStale_le store0 jobDate now d) (h0 d)
  intro s hs
  by_cases hconn : f.connectFault = true
  · simp only [run, hconn, if_true, List.mem_cons, List.not_mem_nil,
      or_false] at hs
    subst hs
    exact h0
  · rw [Bool.not_eq_true] at hconn
    by_cases hgrant : (checkJobLock store0 jobDate now f.lock).1 = true
    · by_cases hcf : f.createFault = true
      · simp only [run, hconn, Bool.false_eq_true, if_false, hgrant, if_true,
          createJobRecord, hcf, List.mem_cons, List.not_mem_nil,
          or_false] at hs
        rcases hs with rfl | rfl | rfl
        · exact h0
        · exact hlock
        · exact hlock
      · rw [Bool.not_eq_true] at hcf
        have hgr := checkJobLock_grant store0 jobDate now f.lock hgrant
        have hstore2 : AtMostOneRunning
            ((checkJobLock store0 jobDate now f.lock).2 ++
              [⟨newId, jobDate, JobStatus.running, 0, now, none⟩]) := by
          refine atMostOne_append_new _ _ hlock ?_
          rw [hgr.1]
          exact hgr.2
        cases hu : updateLeadScores leads rows f.cfgFault f.leadFault
            f.fetchFault with
        | error k =>
          simp only [run, hconn, Bool.false_eq_true, if_false, hgrant,
            if_true, createJobRecord, hcf, hu, List.mem_cons,
            List.not_mem_nil, or_false] at hs
          rcases hs with rfl | rfl | rfl | rfl
          · exact h0
          · exact hlock
          · exact hstore2
          · intro d
            exact le_trans (runningCount_completeJob_le _ _ _ _ _ _ d)
              (hstore2 d)
        | ok n =>
          simp only [run, hconn, Bool.false_eq_true, if_false, hgrant,
            if_true, createJobRecord, hcf, hu, List.mem_cons,
            List.not_mem_nil, or_false] at hs
          have hstore3 : AtMostOneRunning
              (cleanupOldJobs
                ((checkJobLock store0 jobDate now f.lock).2 ++
                  [⟨newId, jobDate, JobStatus.running, 0, now, none⟩])
                jobDate f.cleanupFault) := by
            intro d
            exact le_trans (runningCount_cleanup_le _ _ _ d) (hstore2 d)
          rcases hs with rfl | rfl | rfl | rfl | rfl
          · exact h0
          · exact hlock
          · exact hstore2
          · exact hstore3
          · intro d
            exact le_trans (runningCount_completeJob_le _ _ _ _ _ _ d)
              (hstore3 d)
    · simp only [run, hconn, Bool.false_eq_true, if_false, hgrant,
        List.mem_cons, List.not_mem_nil, or_false] at hs
      rcases hs with rfl | rfl
      · exact h0
      · exact hlock

/-- Witness for C6: a fault-free run from the empty store keeps the final
store within the invariant bound for date 0. -/
theorem c6_at_most_one_running_witness :
    runningCount (run [] [] [] 0 0 1 runNoFaults).store 0 ≤ 1 :=
  c6_at_most_one_running [] [] [] 0 0 1 runNoFaults
    (fun _ => Nat.zero_le _) (run [] [] [] 0 0 1 runNoFaults).store
    (by decide) 0

end LeadFlowX
